import Mathlib

/-!
Verification development for the `cielo` repository: a shallow embedding of
the browser client scripts (`src/static/cielo.js` and the unnamed variant
`src/unnamed/part_001`) and of the MariaDB schema declared in
`src/database/README.md`, together with theorems settling the specification
claims about them.

Client embedding conventions:
* a jQuery `$.ajax({url: u, success: f})` call is modelled as one HTTP
  request to `u`; its method is GET because the jQuery `type` setting
  defaults to `"GET"` when omitted, and no call site in the source sets it;
* the outcome of a request is an `AjaxResult`: either `success` carrying the
  response payload (on which the `success` callback runs) or `failure`
  (no callback in the source is attached to failures, so nothing runs);
* the DOM is the contents of the three regions the scripts write:
  `.cielofeed`, `.cielogamesummary`, `.cielohighscore`;
* each handler becomes a function from request outcomes and the current DOM
  to the new DOM, plus a companion function listing the requests it issues.
-/

/-- Outcome of one jQuery ajax request: the success callback receives the
payload `α`; a failed request runs no callback (no error handler is given
anywhere in the source). -/
inductive AjaxResult (α : Type) where
  | success (data : α)
  | failure
deriving DecidableEq

/-- HTTP method of a request. -/
inductive HttpMethod where
  | GET
  | POST
deriving DecidableEq

/-- One HTTP request issued by the client. -/
structure Request where
  url : String
  method : HttpMethod
deriving DecidableEq

/-- The three DOM regions the scripts write into, by jQuery selector class:
`.cielofeed`, `.cielogamesummary`, `.cielohighscore`. -/
structure Dom where
  cielofeed : String
  cielogamesummary : String
  cielohighscore : String
deriving DecidableEq

/-- The combined object returned by `/state` in `src/unnamed/part_001`:
the handler reads `data.feed`, `data.summary`, `data.highscore`. -/
structure StateData where
  feed : String
  summary : String
  highscore : String
deriving DecidableEq

/-- Settings object of one `$.ajax` call site as written in the source:
which url it targets, and whether a `success` / `error` key is present. -/
structure AjaxCallSite where
  url : String
  hasSuccess : Bool
  hasError : Bool
deriving DecidableEq

/-- A top-level statement of one of the client scripts, as it appears in
the source file: a function declaration (runs nothing), a direct top-level
`$.ajax` call, or the registration of a handler on click, window load, or
`setInterval`. -/
inductive Stmt where
  | funDecl (fname : String)
  | ajaxTopLevel (url : String)
  | registerClick (selector : String) (handler : String)
  | registerLoad (handler : String)
  | setIntervalMs (handler : String) (ms : Nat)
deriving DecidableEq

/-- Handlers a script registers on a click, window-load, or interval event:
the only entry points through which its code can run after load. -/
def entryHandlers (script : List Stmt) : List String :=
  script.filterMap fun s =>
    match s with
    | Stmt.registerClick _ h => some h
    | Stmt.registerLoad h => some h
    | Stmt.setIntervalMs h _ => some h
    | _ => none

/-- Urls of `$.ajax` calls made directly at the top level of a script
(outside every function body and callback). -/
def topLevelAjaxUrls (script : List Stmt) : List String :=
  script.filterMap fun s =>
    match s with
    | Stmt.ajaxTopLevel u => some u
    | _ => none

/-- One closure step over a call graph: add every function called from a
function already in the accumulator. -/
def reachStep (calls : String → List String) (acc : List String) : List String :=
  acc ++ ((acc.flatMap calls).filter fun f => !acc.contains f)

/-- Fuel-bounded reachability over a call graph, starting from `acc`. -/
def reachable (calls : String → List String) : Nat → List String → List String
  | 0, acc => acc
  | n + 1, acc => reachable calls n (reachStep calls acc)

namespace CieloJs

/-!  Embedding of `src/static/cielo.js`. -/

/-- Top-level statements of `cielo.js`, in source order: declare
`update_high_score`, register the anonymous `.cielonewgame` click handler,
declare `update_status_and_feed`, start the 3000 ms interval. -/
def script : List Stmt :=
  [Stmt.funDecl "update_high_score",
   Stmt.registerClick ".cielonewgame" "newgame_click_cb",
   Stmt.funDecl "update_status_and_feed",
   Stmt.setIntervalMs "update_status_and_feed" 3000]

/-- Every named or anonymous function of `cielo.js` (the click callback is
given the name `newgame_click_cb` here). -/
def functionNames : List String :=
  ["update_high_score", "update_status_and_feed", "newgame_click_cb"]

/-- Urls of the `$.ajax` calls textually inside each function body. -/
def ajaxUrlsIn : String → List String
  | "update_high_score" => ["/highscore"]
  | "update_status_and_feed" => ["/feed", "/summary"]
  | "newgame_click_cb" => ["/newgame"]
  | _ => []

/-- Functions invoked from each function body (including from inside its
success callbacks). -/
def callsIn : String → List String
  | "newgame_click_cb" => ["update_status_and_feed", "update_high_score"]
  | _ => []

/-- All `$.ajax` call sites of `cielo.js`: each passes a `url` and a
`success` callback and nothing else — in particular no `error` key. -/
def sites : List AjaxCallSite :=
  [AjaxCallSite.mk "/highscore" true false,
   AjaxCallSite.mk "/newgame" true false,
   AjaxCallSite.mk "/feed" true false,
   AjaxCallSite.mk "/summary" true false]

/-- Function `update_high_score`: GET `/highscore`; on success write the
response into `.cielohighscore`; on failure nothing runs. -/
def update_high_score (r : AjaxResult String) (d : Dom) : Dom :=
  match r with
  | AjaxResult.success response =>
      Dom.mk d.cielofeed d.cielogamesummary response
  | AjaxResult.failure => d

/-- Requests issued by one run of `update_high_score`. -/
def update_high_scoreRequests : List Request :=
  [Request.mk "/highscore" HttpMethod.GET]

/-- Function `update_status_and_feed`: two independent requests, GET `/feed`
writing `.cielofeed` on success and GET `/summary` writing
`.cielogamesummary` on success; a failed request leaves its region alone. -/
def update_status_and_feed (feedR summaryR : AjaxResult String)
    (d : Dom) : Dom :=
  let d1 :=
    match feedR with
    | AjaxResult.success response =>
        Dom.mk response d.cielogamesummary d.cielohighscore
    | AjaxResult.failure => d
  match summaryR with
  | AjaxResult.success response =>
      Dom.mk d1.cielofeed response d1.cielohighscore
  | AjaxResult.failure => d1

/-- Requests issued by one run of `update_status_and_feed`. -/
def update_status_and_feedRequests : List Request :=
  [Request.mk "/feed" HttpMethod.GET, Request.mk "/summary" HttpMethod.GET]

/-- The `.cielonewgame` click handler: GET `/newgame`; only on success call
`update_status_and_feed` then `update_high_score`; on failure nothing
further runs. -/
def newgameClick (newgameR : AjaxResult String)
    (feedR summaryR highR : AjaxResult String) (d : Dom) : Dom :=
  match newgameR with
  | AjaxResult.success _ =>
      update_high_score highR (update_status_and_feed feedR summaryR d)
  | AjaxResult.failure => d

/-- Requests issued by one click on `.cielonewgame`, as a function of the
`/newgame` outcome: the follow-up requests happen only on success. -/
def clickRequests (newgameR : AjaxResult String) : List Request :=
  Request.mk "/newgame" HttpMethod.GET ::
    (match newgameR with
     | AjaxResult.success _ =>
         update_status_and_feedRequests ++ update_high_scoreRequests
     | AjaxResult.failure => [])

end CieloJs

namespace Part001

/-!  Embedding of `src/unnamed/part_001`. -/

/-- Top-level statements of the script, in source order: register the
anonymous `.cielonewgame` click handler, declare `update_state`, register
`update_state` on window load, start the 3000 ms interval. -/
def script : List Stmt :=
  [Stmt.registerClick ".cielonewgame" "newgame_click_cb",
   Stmt.funDecl "update_state",
   Stmt.registerLoad "update_state",
   Stmt.setIntervalMs "update_state" 3000]

/-- Every named or anonymous function of the script. -/
def functionNames : List String :=
  ["update_state", "newgame_click_cb"]

/-- Urls of the `$.ajax` calls textually inside each function body. -/
def ajaxUrlsIn : String → List String
  | "update_state" => ["/state"]
  | "newgame_click_cb" => ["/newgame"]
  | _ => []

/-- Functions invoked from each function body (including from inside its
success callbacks). -/
def callsIn : String → List String
  | "newgame_click_cb" => ["update_state"]
  | _ => []

/-- All `$.ajax` call sites of the script: each passes a `url` and a
`success` callback and nothing else — in particular no `error` key. -/
def sites : List AjaxCallSite :=
  [AjaxCallSite.mk "/newgame" true false,
   AjaxCallSite.mk "/state" true false]

/-- Function `update_state`: GET `/state`; on success write `data.feed`,
`data.summary`, `data.highscore` into the three regions; on failure nothing
runs. -/
def update_state (r : AjaxResult StateData) (d : Dom) : Dom :=
  match r with
  | AjaxResult.success data => Dom.mk data.feed data.summary data.highscore
  | AjaxResult.failure => d

/-- Requests issued by one run of `update_state`. -/
def update_stateRequests : List Request :=
  [Request.mk "/state" HttpMethod.GET]

/-- The `.cielonewgame` click handler: GET `/newgame`; only on success call
`update_state`; on failure nothing further runs. -/
def newgameClick (newgameR : AjaxResult String)
    (stateR : AjaxResult StateData) (d : Dom) : Dom :=
  match newgameR with
  | AjaxResult.success _ => update_state stateR d
  | AjaxResult.failure => d

/-- Requests issued by one click on `.cielonewgame`, as a function of the
`/newgame` outcome: the `/state` request happens only on success. -/
def clickRequests (newgameR : AjaxResult String) : List Request :=
  Request.mk "/newgame" HttpMethod.GET ::
    (match newgameR with
     | AjaxResult.success _ => update_stateRequests
     | AjaxResult.failure => [])

end Part001

/-!
Embedding of the MariaDB schema declared in `src/database/README.md`.

Conventions:
* a SQL value is `null`, a string, an integer, or (for the single `FLOAT`
  column) a real number modelled as a rational — no claim depends on
  floating-point behaviour, only on the nullability of that column;
* MySQL `INT` width is not modelled, since no claim depends on it; the
  `VARCHAR(n)` length bound is modelled, since the spec calls `kind` a
  bounded label;
* a table records its columns (name, type, nullability, declared default)
  and its declared indexes; it also records the declared foreign keys,
  primary key, `UNIQUE` and `CHECK` constraints, so that their absence from
  the two `CREATE TABLE` statements is a statement about the source rather
  than about the model.
-/

/-- Column type as written in the `CREATE TABLE` statements. -/
inductive SqlType where
  | varchar (n : Nat)
  | int
  | float
deriving DecidableEq

/-- A SQL value stored in a cell. -/
inductive SqlValue where
  | null
  | vstr (s : String)
  | vint (n : Int)
  | vreal (q : Rat)
deriving DecidableEq

/-- Whether a non-null value inhabits a column type. -/
def valueFits : SqlValue → SqlType → Bool
  | SqlValue.vstr s, SqlType.varchar n => decide (s.length ≤ n)
  | SqlValue.vint _, SqlType.int => true
  | SqlValue.vreal _, SqlType.float => true
  | _, _ => false

/-- One column declaration: name, type, `NOT NULL` marking, and declared
`DEFAULT` (an integer literal where present; only `duration_seconds`
declares one). -/
structure Column where
  cname : String
  ctype : SqlType
  notNull : Bool
  defaultVal : Option Int
deriving DecidableEq

/-- One table declaration: columns, declared indexes (each a column list),
and the declared foreign keys, primary key, unique and check constraints. -/
structure Table where
  tname : String
  columns : List Column
  indexes : List (List String)
  foreignKeys : List String
  primaryKey : Option (List String)
  uniques : List (List String)
  checks : List String
deriving DecidableEq

/-- The `events` table: `kind VARCHAR(20) NOT NULL`, `t_ref INT NOT NULL`,
`t_end FLOAT`, `INDEX(t_ref)`; no other constraint is declared. -/
def events : Table :=
  Table.mk "events"
    [Column.mk "kind" (SqlType.varchar 20) true none,
     Column.mk "t_ref" SqlType.int true none,
     Column.mk "t_end" SqlType.float false none]
    [["t_ref"]] [] none [] []

/-- The `games` table: `t_start INT NOT NULL`,
`duration_seconds INT NOT NULL DEFAULT 60`, `user VARCHAR(50)`,
`end_score INT`, `INDEX(t_start)`; no other constraint is declared. -/
def games : Table :=
  Table.mk "games"
    [Column.mk "t_start" SqlType.int true none,
     Column.mk "duration_seconds" SqlType.int true (some 60),
     Column.mk "user" (SqlType.varchar 50) false none,
     Column.mk "end_score" SqlType.int false none]
    [["t_start"]] [] none [] []

/-- Whether a column admits a value: `null` is admitted exactly when the
column lacks `NOT NULL`; a non-null value must fit the column type. -/
def columnAccepts (c : Column) (v : SqlValue) : Bool :=
  match v with
  | SqlValue.null => !c.notNull
  | v => valueFits v c.ctype

/-- Whether a full row (one value per column, in declaration order) is
accepted by the declaration of a table. -/
def rowAccepted (t : Table) (r : List SqlValue) : Bool :=
  (r.length == t.columns.length) &&
    (t.columns.zip r).all fun cv => columnAccepts cv.1 cv.2

/-- Whether a row satisfies just the `NOT NULL` markings of a table. -/
def rowNotNullOk (t : Table) (r : List SqlValue) : Bool :=
  (r.length == t.columns.length) &&
    (t.columns.zip r).all fun cv =>
      !cv.1.notNull || !(decide (cv.2 = SqlValue.null))

/-- Whether every non-null value of a row fits the type of its column. -/
def rowTypesOk (t : Table) (r : List SqlValue) : Bool :=
  (r.length == t.columns.length) &&
    (t.columns.zip r).all fun cv =>
      match cv.2 with
      | SqlValue.null => true
      | v => valueFits v cv.1.ctype

/-- SQL `INSERT` with an explicit assignment list: each column takes the
assigned value when one is given, otherwise its declared `DEFAULT` value,
otherwise `null`. -/
def insertRow (t : Table) (vals : List (String × SqlValue)) : List SqlValue :=
  t.columns.map fun c =>
    match vals.lookup c.cname with
    | some v => v
    | none =>
        match c.defaultVal with
        | some n => SqlValue.vint n
        | none => SqlValue.null

/-!  Helper lemmas shared by the schema theorems. -/

/-- The acceptance check of a column splits into its nullability part and its
type-conformance part. -/
theorem columnAccepts_eq_split (c : Column) (v : SqlValue) :
    columnAccepts c v =
      ((!c.notNull || !(decide (v = SqlValue.null))) &&
        (match v with
         | SqlValue.null => true
         | v => valueFits v c.ctype)) := by
  cases v <;> simp [columnAccepts]

/-- Distributing `List.all` over a pointwise conjunction of predicates. -/
theorem list_all_and {α : Type} (l : List α) (p q : α → Bool) :
    (l.all fun x => p x && q x) = (l.all p && l.all q) := by
  induction l with
  | nil => rfl
  | cons a t ih =>
      simp only [List.all_cons, ih]
      cases p a <;> cases q a <;> simp

/-- A table accepts a row exactly when the row satisfies the `NOT NULL`
markings of the table and every non-null value fits the type of its column. -/
theorem rowAccepted_eq_split (t : Table) (r : List SqlValue) :
    rowAccepted t r = (rowNotNullOk t r && rowTypesOk t r) := by
  unfold rowAccepted rowNotNullOk rowTypesOk
  cases hl : (r.length == t.columns.length)
  · simp
  · simp only [Bool.true_and]
    have hsplit := list_all_and (t.columns.zip r)
      (fun cv => !cv.1.notNull || !(decide (cv.2 = SqlValue.null)))
      (fun cv =>
        match cv.2 with
        | SqlValue.null => true
        | v => valueFits v cv.1.ctype)
    rw [← hsplit]
    simp only [columnAccepts_eq_split]

/-- C4: every row accepted by the `events` table has a non-null `kind` that
is a string of at most 20 characters and a non-null `t_ref`, while `t_end`
may be null (witnessed by an accepted row whose `t_end` is null). -/
theorem c4_events_row_invariant (v₀ v₁ v₂ : SqlValue)
    (h : rowAccepted events [v₀, v₁, v₂] = true) :
    (∃ s, v₀ = SqlValue.vstr s ∧ s.length ≤ 20) ∧ v₁ ≠ SqlValue.null ∧
      rowAccepted events
        [SqlValue.vstr "game_start", SqlValue.vint 0, SqlValue.null] = true := by
  refine ⟨?_, ?_, by decide⟩ <;>
    cases v₀ <;> cases v₁ <;>
      simp_all [rowAccepted, events, columnAccepts, valueFits]

/-- C4 witness: the invariant instantiated at a concrete accepted row. -/
theorem c4_events_row_invariant_witness :
    rowAccepted events [SqlValue.vstr "hit", SqlValue.vint 5, SqlValue.null] =
      true ∧
    (∃ s, SqlValue.vstr "hit" = SqlValue.vstr s ∧ s.length ≤ 20) :=
  ⟨by decide,
   (c4_events_row_invariant (SqlValue.vstr "hit") (SqlValue.vint 5)
      SqlValue.null (by decide)).1⟩

/-- C5: every row accepted by the `games` table has a non-null `t_start`
and a non-null `duration_seconds`, while `user` and `end_score` may each be
null (witnessed by an accepted row with both null). -/
theorem c5_games_row_invariant (v₀ v₁ v₂ v₃ : SqlValue)
    (h : rowAccepted games [v₀, v₁, v₂, v₃] = true) :
    v₀ ≠ SqlValue.null ∧ v₁ ≠ SqlValue.null ∧
      rowAccepted games
        [SqlValue.vint 0, SqlValue.vint 60, SqlValue.null, SqlValue.null] =
        true := by
  refine ⟨?_, ?_, by decide⟩ <;>
    cases v₀ <;> cases v₁ <;>
      simp_all [rowAccepted, games, columnAccepts, valueFits]

/-- C5 witness: the invariant instantiated at a concrete accepted row. -/
theorem c5_games_row_invariant_witness :
    rowAccepted games
      [SqlValue.vint 100, SqlValue.vint 60, SqlValue.null, SqlValue.null] =
      true ∧
    SqlValue.vint (100 : Int) ≠ SqlValue.null :=
  ⟨by decide,
   (c5_games_row_invariant (SqlValue.vint 100) (SqlValue.vint 60)
      SqlValue.null SqlValue.null (by decide)).1⟩

/-- C6 counterexample: a 21-character `kind` makes a row that satisfies
every `NOT NULL` marking of `events` yet is rejected by the schema, so
nullability markings are not the only enforced row invariant — the
`VARCHAR(20)` type also enforces a length bound. -/
theorem c6_counterexample :
    rowNotNullOk events
      [SqlValue.vstr "aaaaaaaaaaaaaaaaaaaaa", SqlValue.vint 0, SqlValue.null] =
      true ∧
    rowAccepted events
      [SqlValue.vstr "aaaaaaaaaaaaaaaaaaaaa", SqlValue.vint 0, SqlValue.null] =
      false := by
  decide

/-- C6 (amended): the schema declares no foreign keys, primary keys, unique
or check constraints on `events` or `games`; the enforced row invariants
are exactly the `NOT NULL` markings together with column-type conformance
(which adds the `VARCHAR` length bounds). -/
theorem c6_amended_constraints (r : List SqlValue) :
    events.foreignKeys = [] ∧ games.foreignKeys = [] ∧
    events.primaryKey = none ∧ games.primaryKey = none ∧
    events.uniques = [] ∧ games.uniques = [] ∧
    events.checks = [] ∧ games.checks = [] ∧
    rowAccepted events r = (rowNotNullOk events r && rowTypesOk events r) ∧
    rowAccepted games r = (rowNotNullOk games r && rowTypesOk games r) :=
  ⟨rfl, rfl, rfl, rfl, rfl, rfl, rfl, rfl,
   rowAccepted_eq_split events r, rowAccepted_eq_split games r⟩

/-- C7: `events` is indexed on `t_ref` and `games` is indexed on `t_start`,
and these are the only indexes of the two tables. -/
theorem c7_time_indexes :
    events.indexes = [["t_ref"]] ∧ games.indexes = [["t_start"]] :=
  ⟨rfl, rfl⟩

/-- C10: an insertion into `games` that does not assign `duration_seconds`
stores the declared default 60 in that column. -/
theorem c10_duration_default (vals : List (String × SqlValue))
    (h : vals.lookup "duration_seconds" = none) :
    (insertRow games vals).get? 1 = some (SqlValue.vint 60) := by
  simp [insertRow, games, h]

/-- C10 witness: inserting with only `t_start` assigned stores 60 as the
duration. -/
theorem c10_duration_default_witness :
    ([("t_start", SqlValue.vint 100)] : List (String × SqlValue)).lookup
        "duration_seconds" = none ∧
    (insertRow games [("t_start", SqlValue.vint 100)]).get? 1 =
      some (SqlValue.vint 60) :=
  ⟨by decide, c10_duration_default [("t_start", SqlValue.vint 100)] (by decide)⟩

/-- C1 counterexample: in `cielo.js` the polling timer runs
`update_status_and_feed`, which issues two separate requests (`/feed` and
`/summary`, no combined `/state` object) and, even when both succeed,
leaves the high-score region unchanged — so a timer tick does not update
all three DOM regions from one combined state object. -/
theorem c1_counterexample :
    Stmt.setIntervalMs "update_status_and_feed" 3000 ∈ CieloJs.script ∧
    CieloJs.update_status_and_feed (AjaxResult.success "newfeed")
        (AjaxResult.success "newsummary") (Dom.mk "f0" "s0" "oldhigh") =
      Dom.mk "newfeed" "newsummary" "oldhigh" ∧
    CieloJs.update_status_and_feedRequests.map Request.url =
      ["/feed", "/summary"] := by
  exact ⟨by decide, rfl, rfl⟩

/-- C1 (amended): in `src/unnamed/part_001` every timer tick runs
`update_state`, which fetches the combined `/state` object and on success
updates all three DOM regions with its fields; in `src/static/cielo.js` the
timer handler instead issues two separate requests (`/feed`, `/summary`)
and updates only the feed and summary regions, never the high score. -/
theorem c1_amended_poller (st : StateData) (fr sr : AjaxResult String)
    (d : Dom) :
    Stmt.setIntervalMs "update_state" 3000 ∈ Part001.script ∧
    Part001.update_state (AjaxResult.success st) d =
      Dom.mk st.feed st.summary st.highscore ∧
    Part001.update_stateRequests = [Request.mk "/state" HttpMethod.GET] ∧
    Stmt.setIntervalMs "update_status_and_feed" 3000 ∈ CieloJs.script ∧
    (CieloJs.update_status_and_feed fr sr d).cielohighscore =
      d.cielohighscore ∧
    CieloJs.update_status_and_feedRequests =
      [Request.mk "/feed" HttpMethod.GET,
       Request.mk "/summary" HttpMethod.GET] := by
  refine ⟨by decide, rfl, rfl, by decide, ?_, rfl⟩
  cases fr <;> cases sr <;> rfl

/-- C2 counterexample: the request the click handler sends to `/newgame`
uses method GET (the jQuery default when `type` is omitted), not POST; and a
`/newgame` request that completes with failure triggers no refresh. -/
theorem c2_counterexample :
    (Part001.clickRequests (AjaxResult.success "ok")).head? =
      some (Request.mk "/newgame" HttpMethod.GET) ∧
    (CieloJs.clickRequests (AjaxResult.success "ok")).head? =
      some (Request.mk "/newgame" HttpMethod.GET) ∧
    HttpMethod.GET ≠ HttpMethod.POST ∧
    Part001.newgameClick AjaxResult.failure
        (AjaxResult.success (StateData.mk "f" "s" "h")) (Dom.mk "a" "b" "c") =
      Dom.mk "a" "b" "c" := by
  exact ⟨rfl, rfl, by decide, rfl⟩

/-- C2 (amended): clicking `.cielonewgame` sends a GET request (the
jQuery default method) to `/newgame`, and if that request succeeds the handler
refreshes the displayed state: in `part_001` by fetching `/state` and
writing all three regions, in `cielo.js` by fetching `/feed`, `/summary`
and `/highscore` and writing the corresponding regions. -/
theorem c2_amended_newgame_click (ok f s hsc : String) (st : StateData)
    (d : Dom) :
    Part001.clickRequests (AjaxResult.success ok) =
      [Request.mk "/newgame" HttpMethod.GET,
       Request.mk "/state" HttpMethod.GET] ∧
    Part001.newgameClick (AjaxResult.success ok) (AjaxResult.success st) d =
      Dom.mk st.feed st.summary st.highscore ∧
    CieloJs.clickRequests (AjaxResult.success ok) =
      [Request.mk "/newgame" HttpMethod.GET,
       Request.mk "/feed" HttpMethod.GET,
       Request.mk "/summary" HttpMethod.GET,
       Request.mk "/highscore" HttpMethod.GET] ∧
    CieloJs.newgameClick (AjaxResult.success ok) (AjaxResult.success f)
        (AjaxResult.success s) (AjaxResult.success hsc) d =
      Dom.mk f s hsc := by
  exact ⟨rfl, rfl, rfl, rfl⟩

/-- C3: no ajax call site in either script carries an `error` handler; a
failed request triggers no retry (the request list stays a single entry)
and no compensating action — every handler leaves the DOM regions whose
request failed unchanged, and a failed `/newgame` leaves everything
unchanged. -/
theorem c3_no_error_handling (d : Dom) (fr sr hr : AjaxResult String)
    (str : AjaxResult StateData) :
    ((CieloJs.sites ++ Part001.sites).all fun c => !c.hasError) = true ∧
    Part001.update_state AjaxResult.failure d = d ∧
    Part001.newgameClick AjaxResult.failure str d = d ∧
    Part001.clickRequests AjaxResult.failure =
      [Request.mk "/newgame" HttpMethod.GET] ∧
    CieloJs.update_high_score AjaxResult.failure d = d ∧
    (CieloJs.update_status_and_feed AjaxResult.failure sr d).cielofeed =
      d.cielofeed ∧
    (CieloJs.update_status_and_feed fr AjaxResult.failure d).cielogamesummary =
      d.cielogamesummary ∧
    CieloJs.update_status_and_feed AjaxResult.failure AjaxResult.failure d =
      d ∧
    CieloJs.newgameClick AjaxResult.failure fr sr hr d = d ∧
    CieloJs.clickRequests AjaxResult.failure =
      [Request.mk "/newgame" HttpMethod.GET] := by
  refine ⟨by decide, rfl, rfl, rfl, rfl, ?_, ?_, rfl, rfl, rfl⟩
  · cases sr <;> rfl
  · cases fr <;> rfl

/-- C8: neither script issues an ajax request at the top level, the only
registered entry points are the `.cielonewgame` click handler, the window
load handler (`part_001` only) and the `setInterval` callback, and every
function containing an ajax call is reachable through the call graph from
one of those registered handlers. -/
theorem c8_requests_only_from_handlers :
    topLevelAjaxUrls CieloJs.script = [] ∧
    topLevelAjaxUrls Part001.script = [] ∧
    entryHandlers CieloJs.script =
      ["newgame_click_cb", "update_status_and_feed"] ∧
    entryHandlers Part001.script =
      ["newgame_click_cb", "update_state", "update_state"] ∧
    (CieloJs.functionNames.all fun f =>
      decide (CieloJs.ajaxUrlsIn f = []) ||
        (reachable CieloJs.callsIn CieloJs.functionNames.length
            (entryHandlers CieloJs.script)).contains f) = true ∧
    (Part001.functionNames.all fun f =>
      decide (Part001.ajaxUrlsIn f = []) ||
        (reachable Part001.callsIn Part001.functionNames.length
            (entryHandlers Part001.script)).contains f) = true := by
  decide

/-- C9: the refresh after a `.cielonewgame` click is gated on success of the
`/newgame` request: on failure neither handler touches any DOM region and
no further request is issued. -/
theorem c9_refresh_gated_on_success (d : Dom) (fr sr hr : AjaxResult String)
    (str : AjaxResult StateData) :
    Part001.newgameClick AjaxResult.failure str d = d ∧
    CieloJs.newgameClick AjaxResult.failure fr sr hr d = d ∧
    Part001.clickRequests AjaxResult.failure =
      [Request.mk "/newgame" HttpMethod.GET] ∧
    CieloJs.clickRequests AjaxResult.failure =
      [Request.mk "/newgame" HttpMethod.GET] := by
  exact ⟨rfl, rfl, rfl, rfl⟩
